import Mathlib

/-!
Shallow embedding of `scripts/apps/webapp/frontend_manager.py` (class
`FrontendManager`): a supervisor for a React development server with port
failover, dependency installation, readiness detection, health checks and
shutdown.  External effects (filesystem, OS processes, HTTP probes) are
modelled as explicit oracle inputs; each Python method becomes a pure
function over those oracles and an explicit `RuntimeState`.
-/

/- ### Runtime state

Mirrors the mutable fields set in `FrontendManager.__init__` (lines 53-58 of
the source): `process`, `current_port`, `current_url`, `pid`,
`frontend_stdout_log_file`, `frontend_stderr_log_file`.  A `Popen` handle is
identified by its pid; an open log-file handle carries no data we need, so it
is `Option Unit` (present or absent). -/
structure RuntimeState where
  process : Option Nat
  current_port : Option Nat
  current_url : Option String
  pid : Option Nat
  frontend_stdout_log_file : Option Unit
  frontend_stderr_log_file : Option Unit
deriving DecidableEq

/-- Initial runtime state: every field is `None` in `__init__`. -/
def RuntimeState.initial : RuntimeState :=
  { process := none, current_port := none, current_url := none, pid := none,
    frontend_stdout_log_file := none, frontend_stderr_log_file := none }

/-- All six runtime fields absent. -/
def RuntimeState.allAbsent (s : RuntimeState) : Prop :=
  s.process = none ∧ s.current_port = none ∧ s.current_url = none ∧
  s.pid = none ∧ s.frontend_stdout_log_file = none ∧ s.frontend_stderr_log_file = none

/-- All six runtime fields present. -/
def RuntimeState.allPresent (s : RuntimeState) : Prop :=
  s.process ≠ none ∧ s.current_port ≠ none ∧ s.current_url ≠ none ∧
  s.pid ≠ none ∧ s.frontend_stdout_log_file ≠ none ∧ s.frontend_stderr_log_file ≠ none

/-- The all-or-nothing invariant claimed for `RuntimeState`. -/
def stateInvariant (s : RuntimeState) : Prop :=
  s.allPresent ∨ s.allAbsent

/- ### Configuration

Mirrors `__init__` (lines 43-50), with the same `config.get` defaults. -/
structure Config where
  enabled : Bool := true
  path : Option String := none
  start_port : Nat := 3000
  fallback_ports : List Nat := [3001, 3002]
  start_command : String := "npm start"
  build_command : String := "npm run build"
  timeout_seconds : Nat := 90
  max_attempts : Nat := 5

/- ### Observable events

Trace of externally visible actions the manager performs, used to state
"never spawns on an occupied port", "no probing before path resolution",
"closes each sink exactly once", etc. -/
inductive Event where
  | probePort (port : Nat)
  | installRun
  | installKilled
  | spawn (port : Nat)
  | probeHttp (port : Nat)
  | terminateProc
  | killProc
  | closeStdout
  | closeStderr
deriving DecidableEq

/- ### Log scraping (`_wait_for_frontend`, lines 200-213)

The Python code runs `re.search(r"Local:\s+(http://localhost:(\d+))", log)`
on the full stdout log and takes `int(group(2))`.  We implement that regex
directly: leftmost occurrence of the literal `Local:`, one or more ASCII
whitespace characters, the literal `http://localhost:`, then a maximal
non-empty run of digits. -/

/-- ASCII characters matched by Python regex `\s` (the log lines of interest
contain only ASCII whitespace). -/
def isPySpace (c : Char) : Bool :=
  c = ' ' || c = '\t' || c = '\n' || c = '\r' || c = '\x0b' || c = '\x0c'

/-- Drop a literal character sequence from the front of the input, if present. -/
def dropLit : List Char → List Char → Option (List Char)
  | [], rest => some rest
  | _ :: _, [] => none
  | l :: ls, c :: cs => if c = l then dropLit ls cs else none

/-- Split off the maximal run of whitespace, returning how many characters
were consumed together with the remainder. -/
def spanWs : List Char → Nat × List Char
  | [] => (0, [])
  | c :: cs =>
    if isPySpace c then
      let r := spanWs cs
      (r.1 + 1, r.2)
    else (0, c :: cs)

/-- Split off the maximal run of decimal digits. -/
def spanDigits : List Char → List Char × List Char
  | [] => ([], [])
  | c :: cs =>
    if c.isDigit then
      let r := spanDigits cs
      (c :: r.1, r.2)
    else ([], c :: cs)

/-- Numeric value of a digit run (what Python `int` returns on `group(2)`). -/
def digitsToNat (l : List Char) : Nat :=
  l.foldl (fun a c => 10 * a + (c.toNat - 48)) 0

/-- Try to match `Local:\s+http://localhost:(\d+)` at the current position. -/
def matchAt (l : List Char) : Option Nat :=
  match dropLit (("Local:").data) l with
  | none => none
  | some r1 =>
    let w := spanWs r1
    if w.1 = 0 then none
    else
      match dropLit (("http://localhost:").data) w.2 with
      | none => none
      | some r2 =>
        let d := spanDigits r2
        if d.1 = [] then none else some (digitsToNat d.1)

/-- Leftmost match of the announcement pattern, as `re.search` returns it. -/
def scanAnnouncement : List Char → Option Nat
  | [] => none
  | c :: cs =>
    match matchAt (c :: cs) with
    | some n => some n
    | none => scanAnnouncement cs

/- ### One poll cycle of the readiness loop

Lines 194-228.  Each iteration observes: the child's exit status
(`self.process.poll()`), the stdout log content (`None` models a missing file
or a read error, both of which the code swallows), and the outcome of the
HTTP GET (`none` models a raised `aiohttp.ClientError`, which the code
catches; `some st` a response with status `st`). -/
structure PollCycle where
  procExited : Option Int
  logContent : Option String
  httpStatus : Option Nat
deriving DecidableEq

/-- Port-tracking update of one cycle (lines 200-213): if the log scrape
finds an announced port different from the tracked one, switch to it. -/
def trackPort (logContent : Option String) (detected : Nat) : Nat :=
  match logContent with
  | none => detected
  | some content =>
    match scanAnnouncement content.data with
    | some q => if q ≠ detected then q else detected
    | none => detected

/-- URL probed against a tracked port (line 215). -/
def localUrl (p : Nat) : String :=
  "http://localhost:" ++ toString p

/-- Embedding of `_wait_for_frontend` (lines 187-231).  The remaining poll
cycles before the deadline are the list argument (the Python loop runs while
`time.time() < end_time`; an empty list is deadline expiry).  Returns the
Python triple `(ready, final_port, final_url)` together with the list of
ports actually probed over HTTP, in order. -/
def wait_for_frontend : List PollCycle → Nat → (Bool × Option Nat × Option String) × List Nat
  | [], _ => ((false, none, none), [])
  | c :: rest, detected =>
    match c.procExited with
    | some _ => ((false, none, none), [])
    | none =>
      let d1 := trackPort c.logContent detected
      match c.httpStatus with
      | some st =>
        if st = 200 then ((true, some d1, some (localUrl d1)), [d1])
        else
          let r := wait_for_frontend rest d1
          (r.1, d1 :: r.2)
      | none =>
        let r := wait_for_frontend rest d1
        (r.1, d1 :: r.2)

/- ### Dependency installation (`_ensure_dependencies`, lines 148-174)

Oracle outcomes of the external `npm install` step. -/
inductive InstallOutcome where
  | exitZero
  | exitNonZero
  | timedOut
  | raised
deriving DecidableEq

/- Outcome of the `try` block of `_start_on_port` (lines 115-129) up to and
including `subprocess.Popen`: either one of the three statements that can
raise (`open` of the stdout log, `open` of the stderr log, `Popen` itself)
raises — all land in the same `except Exception` handler at line 143 — or the
child is spawned with the given pid. -/
inductive LaunchOutcome where
  | raiseOpenStdout
  | raiseOpenStderr
  | raiseSpawn
  | spawned (procPid : Nat)
deriving DecidableEq

/-- How the `try` block of `stop()` (lines 269-286) plays out when a process
is owned: the child terminates within the 10s grace period, or it must be
force-killed, or one of the calls raises (caught at line 285, only logged).
A raised `close()` (lines 291, 298) is also only logged and does not change
state or the number of close calls, so it needs no oracle. -/
inductive TermOutcome where
  | graceful
  | killedAfterTimeout
  | raised
deriving DecidableEq

structure StopEnv where
  term : TermOutcome
deriving DecidableEq

/-- Per-attempt world: whether `node_modules` exists, how `npm install` would
go, how the launch goes, the poll cycles the readiness loop will see, and the
stop oracle used by in-attempt teardown. -/
structure AttemptEnv where
  node_modules_exists : Bool
  install : InstallOutcome
  launch : LaunchOutcome
  cycles : List PollCycle
  stopEnv : StopEnv

/-- Embedding of `_ensure_dependencies` (lines 148-174).  The function checks
for `node_modules`; if absent it runs `npm install` (non-zero exit and
exceptions are only logged; a 120s timeout force-kills the install).  It has
no `return` statement on any path, so in Python every branch returns `None`:
the second component is `none` in every case.  The first component is the
trace of install actions. -/
def ensure_dependencies (env : AttemptEnv) : List Event × Option Bool :=
  if env.node_modules_exists then ([], none)
  else
    match env.install with
    | .exitZero => ([Event.installRun], none)
    | .exitNonZero => ([Event.installRun], none)
    | .timedOut => ([Event.installRun, Event.installKilled], none)
    | .raised => ([Event.installRun], none)

/-- Python truthiness of the value `_start_on_port` tests at line 112
(`if not await self._ensure_dependencies()`): `None` is falsy. -/
def pyTruthy : Option Bool → Bool
  | none => false
  | some b => b

/-- Embedding of `stop` (lines 266-304).  When no process is owned the whole
body is skipped.  Otherwise the `try` block terminates/kills the child
(exceptions only logged), and the `finally` block closes each open log sink
once (setting the field to `None`, which guards a double close), then clears
`process`, `current_url` and `pid`.  Note that `current_port` is not cleared
anywhere in `stop`.  Returns the new state and the trace of actions. -/
def stop (s : RuntimeState) (env : StopEnv) : RuntimeState × List Event :=
  match s.process with
  | none => (s, [])
  | some _ =>
    let termEv : List Event :=
      match env.term with
      | .graceful => [Event.terminateProc]
      | .killedAfterTimeout => [Event.terminateProc, Event.killProc]
      | .raised => [Event.terminateProc]
    let r1 : List Event × RuntimeState :=
      match s.frontend_stdout_log_file with
      | some _ => ([Event.closeStdout], { s with frontend_stdout_log_file := none })
      | none => ([], s)
    let r2 : List Event × RuntimeState :=
      match r1.2.frontend_stderr_log_file with
      | some _ => ([Event.closeStderr], { r1.2 with frontend_stderr_log_file := none })
      | none => ([], r1.2)
    ({ r2.2 with process := none, current_url := none, pid := none },
      termEv ++ r1.1 ++ r2.1)

/-- Result dictionary of a start attempt (and of `start_with_failover`). -/
structure AttemptResult where
  success : Bool
  url : Option String := none
  port : Option Nat := none
  pid : Option Nat := none
  error : Option String := none
deriving DecidableEq

/-- Embedding of `_start_on_port` (lines 108-146).  First
`_ensure_dependencies` is awaited and its (always-`None`) return value is
tested for truthiness; a falsy value returns the dependency failure before
anything else happens.  Otherwise the `try` block opens the two log sinks,
spawns the child, runs the readiness wait, and either publishes the success
state (lines 134-138) or tears down via `stop` (line 140); any exception in
the block also tears down via `stop` (line 145) and returns `str(e)` as the
error (modelled by a fixed message, since the text comes from the raised
exception). -/
def start_on_port (_cfg : Config) (env : AttemptEnv) (port : Nat) (s : RuntimeState) :
    AttemptResult × RuntimeState × List Event :=
  let dep := ensure_dependencies env
  if pyTruthy dep.2 = false then
    ({ success := false, error := some ("Échec de l'installation des dépendances npm") },
      s, dep.1)
  else
    match env.launch with
    | .raiseOpenStdout =>
      let r := stop s env.stopEnv
      ({ success := false, error := some ("exception") }, r.1, dep.1 ++ r.2)
    | .raiseOpenStderr =>
      let sA := { s with frontend_stdout_log_file := some () }
      let r := stop sA env.stopEnv
      ({ success := false, error := some ("exception") }, r.1, dep.1 ++ r.2)
    | .raiseSpawn =>
      let sA := { s with frontend_stdout_log_file := some (),
                         frontend_stderr_log_file := some () }
      let r := stop sA env.stopEnv
      ({ success := false, error := some ("exception") }, r.1, dep.1 ++ r.2)
    | .spawned procPid =>
      let sA := { s with frontend_stdout_log_file := some (),
                         frontend_stderr_log_file := some (),
                         process := some procPid }
      let w := wait_for_frontend env.cycles port
      match w.1 with
      | (true, finalPort, finalUrl) =>
        let sB := { sA with current_port := finalPort, current_url := finalUrl,
                            pid := some procPid }
        ({ success := true, url := finalUrl, port := finalPort, pid := some procPid },
          sB, dep.1 ++ [Event.spawn port] ++ w.2.map Event.probeHttp)
      | (false, _, _) =>
        let r := stop sA env.stopEnv
        ({ success := false,
           error := some ("Échec du démarrage du frontend sur le port " ++ toString port) },
          r.1, dep.1 ++ [Event.spawn port] ++ w.2.map Event.probeHttp ++ r.2)

/- ### Path resolution (`_find_frontend_path`, lines 62-80) -/

/-- Filesystem oracle: `Path(p).exists()`, `(p / "package.json").exists()`,
and `Path.cwd()`. -/
structure FileSystem where
  pathExists : String → Bool
  manifestExists : String → Bool
  cwd : String

/-- The fixed, ordered candidate directories of lines 69-73. -/
def candidate_paths (cwd : String) : List String :=
  [cwd ++ "/interface_web", cwd ++ "/frontend",
   cwd ++ "/services/web_api/interface-web-argumentative"]

/-- Embedding of `_find_frontend_path`: a non-empty configured path that
exists is used as-is (Python tests `if configured_path and
Path(configured_path).exists()`, so the empty string is falsy); otherwise the
candidate list is probed in order for a `package.json` and the first match
wins; otherwise `None`. -/
def find_frontend_path (fs : FileSystem) (configured : Option String) : Option String :=
  match configured with
  | some p =>
    if (p != "") && fs.pathExists p then some p
    else (candidate_paths fs.cwd).find? fs.manifestExists
  | none => (candidate_paths fs.cwd).find? fs.manifestExists

/- ### The failover loop (`start_with_failover`, lines 82-106) -/

/-- World oracle for a whole `start_with_failover` call: the filesystem, the
occupancy probe `_is_port_occupied`, and the per-port attempt world. -/
structure WorldEnv where
  fs : FileSystem
  occupied : Nat → Bool
  attemptEnv : Nat → AttemptEnv

/-- Outcome of the port loop: early-success result (if any), final state,
event trace, and the ports on which `_start_on_port` was invoked, in order. -/
structure GoOutcome where
  res : Option AttemptResult
  state : RuntimeState
  events : List Event
  tried : List Nat
deriving DecidableEq

/-- The `for port in ports_to_try` loop of lines 94-102, with the
`self._start_on_port` method call abstracted as the attempt function `att`:
probe each candidate in order; an occupied port is skipped with no attempt;
otherwise run the attempt and return its result immediately if it succeeded,
else continue with the next candidate. -/
def failoverGo (occ : Nat → Bool)
    (att : Nat → RuntimeState → AttemptResult × RuntimeState × List Event)
    (s : RuntimeState) : List Nat → GoOutcome
  | [] => { res := none, state := s, events := [], tried := [] }
  | p :: ps =>
    if occ p then
      let o := failoverGo occ att s ps
      { o with events := Event.probePort p :: o.events }
    else
      let r := att p s
      if r.1.success then
        { res := some r.1, state := r.2.1,
          events := Event.probePort p :: r.2.2, tried := [p] }
      else
        let o := failoverGo occ att r.2.1 ps
        { o with events := Event.probePort p :: r.2.2 ++ o.events,
                 tried := p :: o.tried }

/-- Full outcome of `start_with_failover`. -/
structure FailoverOutcome where
  result : AttemptResult
  state : RuntimeState
  events : List Event
  tried : List Nat
deriving DecidableEq

/-- Embedding of `start_with_failover` (lines 82-106): return success with an
explanatory message when disabled; fail when no frontend path was resolved;
otherwise run the port loop over `[start_port] + fallback_ports` and, if no
candidate succeeded, return the aggregate failure naming the configured
ports. -/
def start_with_failover (cfg : Config) (env : WorldEnv) (s : RuntimeState) :
    FailoverOutcome :=
  if !cfg.enabled then
    { result := { success := true, error := some ("Frontend désactivé") },
      state := s, events := [], tried := [] }
  else
    match find_frontend_path env.fs cfg.path with
    | none =>
      { result := { success := false, error := some ("Chemin du frontend non trouvé.") },
        state := s, events := [], tried := [] }
    | some _ =>
      let ports := cfg.start_port :: cfg.fallback_ports
      let o := failoverGo env.occupied
        (fun p t => start_on_port cfg (env.attemptEnv p) p t) s ports
      match o.res with
      | some r => { result := r, state := o.state, events := o.events, tried := o.tried }
      | none =>
        let msg := "Impossible de démarrer le frontend sur les ports configurés: "
              ++ toString ports
        { result := { success := false, error := some msg },
          state := o.state, events := o.events, tried := o.tried }

/- ### Status and health (`get_status` lines 306-316, `health_check`
lines 249-264) -/

/-- The dictionary returned by `get_status` (Python `str(None)` is the string
rendered for an unresolved path). -/
structure Status where
  enabled : Bool
  running : Bool
  port : Option Nat
  url : Option String
  pid : Option Nat
  path : String
  process : Option Nat
deriving DecidableEq

/-- Embedding of `get_status`. -/
def get_status (enabled : Bool) (frontend_path : Option String) (s : RuntimeState) : Status :=
  { enabled := enabled,
    running := s.process.isSome,
    port := s.current_port,
    url := s.current_url,
    pid := s.pid,
    path := match frontend_path with | some p => p | none => "None",
    process := s.process }

/-- Embedding of `health_check`: `False` when no URL is recorded; otherwise
one GET against the recorded URL (`none` models a raised exception), `True`
exactly on status 200. -/
def health_check (s : RuntimeState) (httpStatus : Option Nat) : Bool :=
  match s.current_url with
  | none => false
  | some _ =>
    match httpStatus with
    | some 200 => true
    | _ => false

/- ### build

`manager.build()` is invoked by the `__main__` entry point (line 342) and
`build_command` is read from the configuration (line 48), but the method
itself is not among the sources under review. -/
structure BuildEnv where
  runCommand : String → Int

/-- Modelled from the spec: `FrontendManager.build` is called by the CLI
entry point of frontend_manager.py but its definition is missing from the
sources under review; per the spec it runs the configured build command to
completion and succeeds exactly when the command exits with code zero. -/
def build (cfg : Config) (env : BuildEnv) : Bool :=
  env.runCommand cfg.build_command == 0

/- ### Whole-program public operations (for the state invariant) -/

/-- One invocation of a public operation, together with the world it
observes.  `get_status` and `health_check` read but never write the runtime
state. -/
inductive PublicOp where
  | startOp (cfg : Config) (env : WorldEnv)
  | stopOp (env : StopEnv)
  | statusOp
  | healthOp (httpStatus : Option Nat)

/-- State transition of one public operation. -/
def applyOp (s : RuntimeState) : PublicOp → RuntimeState
  | .startOp cfg env => (start_with_failover cfg env s).state
  | .stopOp env => (stop s env).1
  | .statusOp => s
  | .healthOp _ => s

/-- Runtime state after a sequence of public operations on a fresh manager. -/
def runOps (ops : List PublicOp) : RuntimeState :=
  ops.foldl applyOp RuntimeState.initial

/- ### Concrete fixtures used by witnesses and counterexamples -/

/-- A runtime state with every field present, as published by a successful
attempt on port 3000 with pid 12345. -/
def fullState : RuntimeState :=
  { process := some 12345, current_port := some 3000,
    current_url := some ("http://localhost:3000"), pid := some 12345,
    frontend_stdout_log_file := some (), frontend_stderr_log_file := some () }

/-- A stop world where the child terminates within the grace period. -/
def benignStop : StopEnv := { term := .graceful }

/-- A poll cycle in which the child is alive and already serves HTTP 200. -/
def healthyCycle : PollCycle :=
  { procExited := none, logContent := none, httpStatus := some 200 }

/-- A fully healthy attempt world: dependencies present, spawn succeeds, the
server answers 200 on the first poll. -/
def healthyAttemptEnv : AttemptEnv :=
  { node_modules_exists := true, install := .exitZero, launch := .spawned 4242,
    cycles := [healthyCycle], stopEnv := benignStop }

/-- A filesystem where every probe succeeds. -/
def trivialFs : FileSystem :=
  { pathExists := fun _ => true, manifestExists := fun _ => true, cwd := "/repo" }

/-- A world with a resolvable path, all ports free and healthy attempts. -/
def trivialWorld : WorldEnv :=
  { fs := trivialFs, occupied := fun _ => false, attemptEnv := fun _ => healthyAttemptEnv }

/-- A filesystem where no configured path and no manifest exists. -/
def noManifestFs : FileSystem :=
  { pathExists := fun _ => false, manifestExists := fun _ => false, cwd := "/repo" }

/-- A world in which path resolution fails. -/
def lostWorld : WorldEnv :=
  { fs := noManifestFs, occupied := fun _ => false, attemptEnv := fun _ => healthyAttemptEnv }

/-- Occupancy oracle with exactly port 3000 busy. -/
def c4occ : Nat → Bool := fun p => p == 3000

/-- An attempt function that succeeds on every port it is given. -/
def c4att : Nat → RuntimeState → AttemptResult × RuntimeState × List Event :=
  fun p t => ({ success := true, port := some p }, t, [Event.spawn p])

/-- A poll cycle whose stdout log announces port 3001 and which serves 200. -/
def announceCycle : PollCycle :=
  { procExited := none,
    logContent := some ("Compiled!  Local:   http://localhost:3001"),
    httpStatus := some 200 }

/-- A configuration with the frontend disabled. -/
def disabledConfig : Config := { enabled := false }

/-- A build world whose command exits 0. -/
def zeroBuildEnv : BuildEnv := { runCommand := fun _ => 0 }

/- ### Helper lemmas -/

/-- `_ensure_dependencies` returns Python `None` on every path: it has no
`return` statement. -/
theorem ensure_dependencies_returns_none (env : AttemptEnv) :
    (ensure_dependencies env).2 = none := by
  cases h : env.node_modules_exists <;> cases hi : env.install <;>
    simp [ensure_dependencies, h, hi]

/-- Consequently `_start_on_port` always takes the dependency-failure early
return: its result, state and trace are fully determined. -/
theorem start_on_port_dep_failure (cfg : Config) (env : AttemptEnv) (port : Nat)
    (s : RuntimeState) :
    start_on_port cfg env port s =
      ({ success := false,
         error := some ("Échec de l'installation des dépendances npm") },
        s, (ensure_dependencies env).1) := by
  simp [start_on_port, ensure_dependencies_returns_none, pyTruthy]

/-- `_start_on_port` never succeeds and never mutates the runtime state. -/
theorem start_on_port_inert (cfg : Config) (env : AttemptEnv) (p : Nat) (t : RuntimeState) :
    (start_on_port cfg env p t).1.success = false ∧ (start_on_port cfg env p t).2.1 = t := by
  rw [start_on_port_dep_failure]
  exact ⟨rfl, rfl⟩

/-- The port loop leaves the state unchanged and reports no success when the
attempt function never succeeds and never mutates the state. -/
theorem failoverGo_inert (occ : Nat → Bool)
    (att : Nat → RuntimeState → AttemptResult × RuntimeState × List Event)
    (hatt : ∀ p t, (att p t).1.success = false ∧ (att p t).2.1 = t)
    (s : RuntimeState) (ports : List Nat) :
    (failoverGo occ att s ports).state = s ∧ (failoverGo occ att s ports).res = none := by
  induction ports generalizing s with
  | nil => simp [failoverGo]
  | cons p ps ih =>
    cases h : occ p with
    | true => simpa [failoverGo, h] using ih s
    | false =>
      have h1 := hatt p s
      have h2 := ih ((att p s).2.1)
      simp [failoverGo, h, h1.1]
      exact ⟨h2.1.trans h1.2, h2.2⟩

/-- `start_with_failover` never mutates the runtime state (every branch
either returns before touching it or loops over inert attempts). -/
theorem start_with_failover_inert (cfg : Config) (env : WorldEnv) (s : RuntimeState) :
    (start_with_failover cfg env s).state = s := by
  unfold start_with_failover
  cases hE : cfg.enabled with
  | false => simp
  | true =>
    simp
    cases hf : find_frontend_path env.fs cfg.path with
    | none => simp
    | some q =>
      have hI := failoverGo_inert env.occupied
        (fun p t => start_on_port cfg (env.attemptEnv p) p t)
        (fun p t => start_on_port_inert cfg (env.attemptEnv p) p t)
        s (cfg.start_port :: cfg.fallback_ports)
      simp
      split <;> simp [hI.1]

/-- Every public-operation sequence leaves a fresh manager in the initial,
all-absent runtime state. -/
theorem runOps_eq_initial (ops : List PublicOp) : runOps ops = RuntimeState.initial := by
  suffices h : ∀ s, s = RuntimeState.initial →
      List.foldl applyOp s ops = RuntimeState.initial by
    exact h _ rfl
  induction ops with
  | nil => intro s hs; simpa using hs
  | cons op rest ih =>
    intro s hs
    subst hs
    have h1 : applyOp RuntimeState.initial op = RuntimeState.initial := by
      cases op with
      | startOp cfg env => exact start_with_failover_inert cfg env _
      | stopOp env => rfl
      | statusOp => rfl
      | healthOp st => rfl
    rw [List.foldl_cons, h1]
    exact ih _ rfl

/-- The ports actually attempted form a prefix of the unoccupied candidates,
in candidate order. -/
theorem failoverGo_tried_front (occ : Nat → Bool)
    (att : Nat → RuntimeState → AttemptResult × RuntimeState × List Event)
    (s : RuntimeState) (ports : List Nat) :
    ∃ rest, ports.filter (fun x => !occ x) = (failoverGo occ att s ports).tried ++ rest := by
  induction ports generalizing s with
  | nil => exact ⟨[], by simp [failoverGo]⟩
  | cons p ps ih =>
    cases h : occ p with
    | true =>
      obtain ⟨r, hr⟩ := ih s
      exact ⟨r, by simp [failoverGo, h, List.filter_cons, hr]⟩
    | false =>
      cases hs : (att p s).1.success with
      | true =>
        exact ⟨ps.filter (fun x => !occ x), by simp [failoverGo, h, hs, List.filter_cons]⟩
      | false =>
        obtain ⟨r, hr⟩ := ih ((att p s).2.1)
        exact ⟨r, by simp [failoverGo, h, hs, List.filter_cons, hr]⟩

/-- Every attempted port was reported free by the occupancy probe. -/
theorem failoverGo_tried_unoccupied (occ : Nat → Bool)
    (att : Nat → RuntimeState → AttemptResult × RuntimeState × List Event)
    (s : RuntimeState) (ports : List Nat) :
    ∀ x ∈ (failoverGo occ att s ports).tried, occ x = false := by
  induction ports generalizing s with
  | nil => simp [failoverGo]
  | cons p ps ih =>
    cases h : occ p with
    | true => simpa [failoverGo, h] using ih s
    | false =>
      cases hs : (att p s).1.success with
      | true =>
        intro x hx
        simp [failoverGo, h, hs] at hx
        simpa [hx] using h
      | false =>
        intro x hx
        simp [failoverGo, h, hs] at hx
        rcases hx with rfl | hx
        · exact h
        · exact ih _ x hx

/-- When no attempt succeeded, every unoccupied candidate was attempted. -/
theorem failoverGo_exhausts (occ : Nat → Bool)
    (att : Nat → RuntimeState → AttemptResult × RuntimeState × List Event)
    (s : RuntimeState) (ports : List Nat) :
    (failoverGo occ att s ports).res = none →
    (failoverGo occ att s ports).tried = ports.filter (fun x => !occ x) := by
  induction ports generalizing s with
  | nil => simp [failoverGo]
  | cons p ps ih =>
    cases h : occ p with
    | true =>
      intro hr
      simp [failoverGo, h, List.filter_cons] at hr ⊢
      exact ih s hr
    | false =>
      cases hs : (att p s).1.success with
      | true => intro hr; simp [failoverGo, h, hs] at hr
      | false =>
        intro hr
        simp [failoverGo, h, hs, List.filter_cons] at hr ⊢
        exact ih _ hr

/-- A returned early result is a successful one. -/
theorem failoverGo_res_success (occ : Nat → Bool)
    (att : Nat → RuntimeState → AttemptResult × RuntimeState × List Event)
    (s : RuntimeState) (ports : List Nat) (r : AttemptResult) :
    (failoverGo occ att s ports).res = some r → r.success = true := by
  induction ports generalizing s with
  | nil => simp [failoverGo]
  | cons p ps ih =>
    cases h : occ p with
    | true =>
      intro hr
      exact ih s (by simpa [failoverGo, h] using hr)
    | false =>
      cases hs : (att p s).1.success with
      | true =>
        intro hr
        simp [failoverGo, h, hs] at hr
        rw [← hr]
        exact hs
      | false =>
        intro hr
        exact ih _ (by simpa [failoverGo, h, hs] using hr)

/-- If the attempt at a port only ever spawns on that same port (true of
`_start_on_port` by construction), then any spawn event in the loop trace is
on a port the occupancy probe reported free. -/
theorem failoverGo_spawn_unoccupied (occ : Nat → Bool)
    (att : Nat → RuntimeState → AttemptResult × RuntimeState × List Event)
    (s : RuntimeState) (ports : List Nat) (q : Nat)
    (hatt : ∀ x u y, Event.spawn y ∈ (att x u).2.2 → y = x) :
    Event.spawn q ∈ (failoverGo occ att s ports).events → occ q = false := by
  induction ports generalizing s with
  | nil => simp [failoverGo]
  | cons p ps ih =>
    cases h : occ p with
    | true =>
      intro hm
      simp [failoverGo, h] at hm
      exact ih s hm
    | false =>
      cases hs : (att p s).1.success with
      | true =>
        intro hm
        simp [failoverGo, h, hs] at hm
        have := hatt p s q hm
        subst this
        exact h
      | false =>
        intro hm
        simp [failoverGo, h, hs] at hm
        rcases hm with hm | hm
        · have := hatt p s q hm
          subst this
          exact h
        · exact ih _ hm

/-- `_start_on_port` never emits a spawn event for a port other than the one
it was asked to start (in the current code it emits none at all, since the
dependency guard returns first). -/
theorem start_on_port_spawn_own_port (cfg : Config) (env : AttemptEnv) (p y : Nat)
    (t : RuntimeState) :
    Event.spawn y ∈ (start_on_port cfg env p t).2.2 → y = p := by
  rw [start_on_port_dep_failure]
  intro hm
  cases h : env.node_modules_exists <;> cases hi : env.install <;>
    simp [ensure_dependencies, h, hi] at hm

/-- With the guards passed, `start_with_failover` attempts exactly the ports
the loop over `[start_port] + fallback_ports` attempts. -/
theorem start_with_failover_tried_eq (cfg : Config) (env : WorldEnv) (s : RuntimeState)
    (h1 : cfg.enabled = true) (h2 : find_frontend_path env.fs cfg.path ≠ none) :
    (start_with_failover cfg env s).tried =
      (failoverGo env.occupied (fun x u => start_on_port cfg (env.attemptEnv x) x u) s
        (cfg.start_port :: cfg.fallback_ports)).tried := by
  unfold start_with_failover
  simp [h1]
  cases hf : find_frontend_path env.fs cfg.path with
  | none => exact absurd hf h2
  | some q =>
    simp
    split <;> rfl

/- ### Claim theorems -/

/-- Claim C1: the spec says a dependency-install failure is non-fatal and
that `_start_on_port` still proceeds to spawn the start command after
`_ensure_dependencies` completes.  In the code `_ensure_dependencies` has no
`return` statement, so it returns `None` on every path — including a fully
successful install and the dependencies-already-present case — and the guard
`if not await self._ensure_dependencies()` at line 112 makes `_start_on_port`
return the dependency failure before opening logs or spawning anything.
Evaluated here at a fully healthy environment (dependencies already present,
spawn and readiness would succeed): the attempt fails at the dependency step,
emits no spawn event and leaves the state untouched. -/
theorem c1_dependency_step_always_fatal :
    (start_on_port {} healthyAttemptEnv 3000 RuntimeState.initial).1 =
      { success := false,
        error := some ("Échec de l'installation des dépendances npm") } ∧
    (start_on_port {} healthyAttemptEnv 3000 RuntimeState.initial).2.1 =
      RuntimeState.initial ∧
    Event.spawn 3000 ∉ (start_on_port {} healthyAttemptEnv 3000 RuntimeState.initial).2.2 := by
  decide

/-- Claim C2 counterexample: on a state owning a process on port 3000, `stop`
runs its cleanup (the process handle is cleared) yet `current_port` is still
`some 3000` afterwards — `stop` never assigns `self.current_port`, so it does
not clear every `RuntimeState` field as the claim states. -/
theorem c2_stop_counterexample :
    (stop fullState benignStop).1.process = none ∧
    (stop fullState benignStop).1.current_port = some 3000 := by
  decide

/-- Claim C2 (amended): `stop()` is idempotent and a no-op when no process is
running; when a process is owned it closes each open log sink exactly once
(double-close guarded by clearing the handle) and clears the process handle,
current URL, pid and both log-sink fields — but it leaves `current_port`
unchanged rather than clearing every `RuntimeState` field.  A second
consecutive call is always a no-op that performs no further closes. -/
theorem c2_stop_cleanup (s : RuntimeState) (env env2 : StopEnv) :
    (s.process = none → stop s env = (s, [])) ∧
    (s.process ≠ none →
      ((stop s env).1.process = none ∧
       (stop s env).1.current_url = none ∧
       (stop s env).1.pid = none ∧
       (stop s env).1.frontend_stdout_log_file = none ∧
       (stop s env).1.frontend_stderr_log_file = none ∧
       (stop s env).1.current_port = s.current_port ∧
       (stop s env).2.count Event.closeStdout =
         (if s.frontend_stdout_log_file.isSome then 1 else 0) ∧
       (stop s env).2.count Event.closeStderr =
         (if s.frontend_stderr_log_file.isSome then 1 else 0))) ∧
    stop (stop s env).1 env2 = ((stop s env).1, []) := by
  rcases s with ⟨proc, port, url, pid, so, se⟩
  rcases env with ⟨term⟩
  cases proc <;> cases so <;> cases se <;> cases term <;>
    simp [stop, List.count_cons, List.count_nil]

/-- Claim C2 witness: the amended statement applied at the concrete
fully-running state. -/
theorem c2_stop_cleanup_witness :
    (stop fullState benignStop).1.process = none ∧
    (stop fullState benignStop).1.current_url = none ∧
    stop (stop fullState benignStop).1 benignStop = ((stop fullState benignStop).1, []) := by
  have h := c2_stop_cleanup fullState benignStop benignStop
  exact ⟨(h.2.1 (by decide)).1, (h.2.1 (by decide)).2.1, h.2.2⟩

/-- Claim C3: along every sequence of public operations on a fresh manager,
the runtime state satisfies the all-present-or-all-absent invariant, and
`get_status` never reports a partially populated state.  This holds in the
code because the only path that populates the runtime fields (success in
`_start_on_port`, lines 134-138) is unreachable: the dependency guard at line
112 always returns first (see C1), so the state observable through
`start_with_failover`, `stop`, `get_status` and `health_check` is always the
all-absent one. -/
theorem c3_state_all_or_nothing (ops : List PublicOp) (e : Bool) (fp : Option String) :
    stateInvariant (runOps ops) ∧
    (get_status e fp (runOps ops)).running = false ∧
    (get_status e fp (runOps ops)).port = none ∧
    (get_status e fp (runOps ops)).url = none ∧
    (get_status e fp (runOps ops)).pid = none := by
  rw [runOps_eq_initial]
  exact ⟨Or.inr ⟨rfl, rfl, rfl, rfl, rfl, rfl⟩, rfl, rfl, rfl, rfl⟩

/-- Claim C4: the port loop of `start_with_failover` (embedded as
`failoverGo`, with the `self._start_on_port` call abstracted as the attempt
function) works through the candidates in order: the attempted ports form a
prefix of the unoccupied candidates in candidate order; every attempted port
was reported free by the occupancy probe (an occupied candidate is skipped
with no attempt, and its result is the result of the remaining candidates); a
successful attempt at the head returns that result at once with no later
candidate tried; any early result is a success; spawn events come only from
attempts, so whenever the attempt at a port spawns only on that port — which
`_start_on_port` does — no spawn ever targets an occupied port; and with the
enabled/path guards passed, `start_with_failover` attempts exactly what the
loop over `start_port :: fallback_ports` attempts. -/
theorem c4_failover_port_order (occ : Nat → Bool)
    (att : Nat → RuntimeState → AttemptResult × RuntimeState × List Event)
    (s : RuntimeState) (ports ps : List Nat) (p q : Nat)
    (cfg : Config) (env : WorldEnv) :
    (∃ rest, ports.filter (fun x => !occ x) = (failoverGo occ att s ports).tried ++ rest) ∧
    (∀ x ∈ (failoverGo occ att s ports).tried, occ x = false) ∧
    ((failoverGo occ att s ports).res = none →
      (failoverGo occ att s ports).tried = ports.filter (fun x => !occ x)) ∧
    (∀ r, (failoverGo occ att s ports).res = some r → r.success = true) ∧
    (occ p = true →
      (failoverGo occ att s (p :: ps)).tried = (failoverGo occ att s ps).tried ∧
      (failoverGo occ att s (p :: ps)).res = (failoverGo occ att s ps).res) ∧
    (occ p = false → (att p s).1.success = true →
      (failoverGo occ att s (p :: ps)).res = some (att p s).1 ∧
      (failoverGo occ att s (p :: ps)).tried = [p]) ∧
    ((∀ x u y, Event.spawn y ∈ (att x u).2.2 → y = x) →
      Event.spawn q ∈ (failoverGo occ att s ports).events → occ q = false) ∧
    (∀ y u, Event.spawn y ∈ (start_on_port cfg (env.attemptEnv p) p u).2.2 → y = p) ∧
    (cfg.enabled = true → find_frontend_path env.fs cfg.path ≠ none →
      (start_with_failover cfg env s).tried =
        (failoverGo env.occupied (fun x u => start_on_port cfg (env.attemptEnv x) x u) s
          (cfg.start_port :: cfg.fallback_ports)).tried) := by
  refine ⟨failoverGo_tried_front occ att s ports,
    failoverGo_tried_unoccupied occ att s ports,
    failoverGo_exhausts occ att s ports,
    fun r => failoverGo_res_success occ att s ports r,
    fun h => ⟨by simp [failoverGo, h], by simp [failoverGo, h]⟩,
    fun h hs => ⟨by simp [failoverGo, h, hs], by simp [failoverGo, h, hs]⟩,
    fun hatt => failoverGo_spawn_unoccupied occ att s ports q hatt,
    fun y u => start_on_port_spawn_own_port cfg (env.attemptEnv p) p y u,
    fun h1 h2 => start_with_failover_tried_eq cfg env s h1 h2⟩

/-- Claim C4 witness: the loop conclusions applied at a concrete world —
port 3001 is free and its attempt succeeds, so the loop returns that attempt
with 3001 as the only tried port. -/
theorem c4_failover_port_order_witness :
    (failoverGo c4occ c4att RuntimeState.initial (3001 :: [3002])).res =
      some (c4att 3001 RuntimeState.initial).1 ∧
    (failoverGo c4occ c4att RuntimeState.initial (3001 :: [3002])).tried = [3001] := by
  have h := c4_failover_port_order c4occ c4att RuntimeState.initial [] [3002] 3001 0
    {} trivialWorld
  exact h.2.2.2.2.2.1 (by decide) (by decide)

/-- Claim C5: when the child is alive and the stdout log scrape finds an
announced port `q` different from the tracked port `p`, that cycle's
readiness probe targets `q` (the head of the probe trace), and if that probe
returns 200 the wait reports `(ready=true, q, "http://localhost:" ++ q)` —
the announced port and its URL, not the originally requested ones. -/
theorem c5_port_reassignment (c : PollCycle) (rest : List PollCycle)
    (content : String) (p q : Nat)
    (h1 : c.procExited = none) (h2 : c.logContent = some content)
    (h3 : scanAnnouncement content.data = some q) (h4 : q ≠ p) :
    (∃ tl, (wait_for_frontend (c :: rest) p).2 = q :: tl) ∧
    (c.httpStatus = some 200 →
      wait_for_frontend (c :: rest) p =
        ((true, some q, some ("http://localhost:" ++ toString q)), [q])) := by
  have hd : trackPort c.logContent p = q := by
    simp [trackPort, h2, h3, h4]
  constructor
  · cases hst : c.httpStatus with
    | none =>
      exact ⟨(wait_for_frontend rest q).2, by simp [wait_for_frontend, h1, hst, hd]⟩
    | some st =>
      by_cases h200 : st = 200
      · subst h200
        exact ⟨[], by simp [wait_for_frontend, h1, hst, hd]⟩
      · exact ⟨(wait_for_frontend rest q).2,
          by simp [wait_for_frontend, h1, hst, hd, h200]⟩
  · intro hst
    simp [wait_for_frontend, h1, hst, hd, localUrl]

/-- Claim C5 witness: a concrete cycle whose log announces 3001 while 3000 is
tracked is probed on 3001 and reported ready on 3001. -/
theorem c5_port_reassignment_witness :
    wait_for_frontend [announceCycle] 3000 =
      ((true, some 3001, some ("http://localhost:" ++ toString 3001)), [3001]) :=
  (c5_port_reassignment announceCycle []
    ("Compiled!  Local:   http://localhost:3001") 3000 3001
    rfl rfl (by decide) (by decide)).2 rfl

/-- Claim C6: if the child process has already exited when a poll cycle
begins, `_wait_for_frontend` returns `(False, None, None)` in that same
cycle, with an empty probe trace — no HTTP probe, no further cycle. -/
theorem c6_early_exit_fast_failure (c : PollCycle) (rest : List PollCycle)
    (p : Nat) (code : Int) (h : c.procExited = some code) :
    wait_for_frontend (c :: rest) p = ((false, none, none), []) := by
  simp [wait_for_frontend, h]

/-- Claim C6 witness: a cycle whose child exited with code 1 fails at once,
even though later observation would have yielded a 200. -/
theorem c6_early_exit_fast_failure_witness :
    wait_for_frontend
      [{ procExited := some 1, logContent := none, httpStatus := some 200 }] 3000 =
      ((false, none, none), []) :=
  c6_early_exit_fast_failure
    { procExited := some 1, logContent := none, httpStatus := some 200 } [] 3000 1 rfl

/-- Claim C7: an HTTP 200 is the sole success condition of
`_wait_for_frontend` (a ready result implies some cycle answered 200); the
deadline expiring with no success returns `(False, None, None)`; and a cycle
with a live child whose probe either fails to connect (`none`, the caught
`aiohttp.ClientError`) or returns non-200 is absorbed: the loop continues
with the next cycle (only the probe trace grows), never surfacing the error
to the caller. -/
theorem c7_http_200_sole_success :
    (∀ (cycles : List PollCycle) (p : Nat),
      ((wait_for_frontend cycles p).1).1 = true → ∃ c ∈ cycles, c.httpStatus = some 200) ∧
    (∀ p : Nat, wait_for_frontend [] p = ((false, none, none), [])) ∧
    (∀ (c : PollCycle) (rest : List PollCycle) (p : Nat),
      c.procExited = none → c.httpStatus ≠ some 200 →
      (wait_for_frontend (c :: rest) p).1 =
        (wait_for_frontend rest (trackPort c.logContent p)).1 ∧
      (wait_for_frontend (c :: rest) p).2 =
        trackPort c.logContent p :: (wait_for_frontend rest (trackPort c.logContent p)).2) := by
  refine ⟨?_, fun p => rfl, ?_⟩
  · intro cycles
    induction cycles with
    | nil => intro p h; simp [wait_for_frontend] at h
    | cons c rest ih =>
      intro p h
      cases hpe : c.procExited with
      | some code => simp [wait_for_frontend, hpe] at h
      | none =>
        cases hst : c.httpStatus with
        | none =>
          simp [wait_for_frontend, hpe, hst] at h
          obtain ⟨c2, hc2, h200⟩ := ih _ h
          exact ⟨c2, List.mem_cons_of_mem _ hc2, h200⟩
        | some st =>
          by_cases h200 : st = 200
          · subst h200
            exact ⟨c, List.mem_cons_self c rest, hst⟩
          · simp [wait_for_frontend, hpe, hst, h200] at h
            obtain ⟨c2, hc2, hc200⟩ := ih _ h
            exact ⟨c2, List.mem_cons_of_mem _ hc2, hc200⟩
  · intro c rest p hpe hst
    cases hs : c.httpStatus with
    | none => exact ⟨by simp [wait_for_frontend, hpe, hs], by simp [wait_for_frontend, hpe, hs]⟩
    | some st =>
      have hne : st ≠ 200 := by
        intro hEq
        subst hEq
        exact hst hs
      exact ⟨by simp [wait_for_frontend, hpe, hs, hne],
        by simp [wait_for_frontend, hpe, hs, hne]⟩

/-- Claim C7 witness: the deadline case and the absorbed-failure case at
concrete inputs (a 503 response is swallowed and the loop moves on). -/
theorem c7_http_200_sole_success_witness :
    wait_for_frontend [] 3000 = ((false, none, none), []) ∧
    (wait_for_frontend
        [{ procExited := none, logContent := none, httpStatus := some 503 }] 3000).1 =
      (wait_for_frontend [] 3000).1 := by
  refine ⟨c7_http_200_sole_success.2.1 3000, ?_⟩
  have h := c7_http_200_sole_success.2.2
    { procExited := none, logContent := none, httpStatus := some 503 } [] 3000 rfl (by decide)
  exact h.1

/-- Claim C8 (spec-modelled `build`): `build()` runs the configured build
command to completion and returns true exactly when the exit code is zero. -/
theorem c8_build_success_iff_zero_exit (cfg : Config) (env : BuildEnv) :
    build cfg env = true ↔ env.runCommand cfg.build_command = 0 := by
  simp [build]

/-- Claim C8 witness: a build whose command exits 0 returns true. -/
theorem c8_build_success_iff_zero_exit_witness :
    build {} zeroBuildEnv = true :=
  (c8_build_success_iff_zero_exit {} zeroBuildEnv).mpr rfl

/-- Claim C9: path resolution is deterministic — a non-empty configured path
that exists is used as-is; otherwise the fixed ordered candidate list is
probed for `package.json` and the first match wins (`List.find?` over
`candidate_paths`) — and it is fatal on failure: with the manager enabled and
no path resolved, `start_with_failover` returns the path failure immediately
with an empty event trace (no port probed, no install run, no spawn) and no
tried port, leaving the state untouched. -/
theorem c9_path_resolution_fatal (fs : FileSystem) (pstr : String)
    (cfg : Config) (env : WorldEnv) (s : RuntimeState) :
    (pstr ≠ "" → fs.pathExists pstr = true → find_frontend_path fs (some pstr) = some pstr) ∧
    (find_frontend_path fs none = (candidate_paths fs.cwd).find? fs.manifestExists) ∧
    (fs.pathExists pstr = false →
      find_frontend_path fs (some pstr) = (candidate_paths fs.cwd).find? fs.manifestExists) ∧
    (cfg.enabled = true → find_frontend_path env.fs cfg.path = none →
      start_with_failover cfg env s =
        { result := { success := false, error := some ("Chemin du frontend non trouvé.") },
          state := s, events := [], tried := [] }) := by
  refine ⟨?_, rfl, ?_, ?_⟩
  · intro hne hex
    simp [find_frontend_path, hex, bne_iff_ne, hne]
  · intro hex
    simp [find_frontend_path, hex]
  · intro hE hf
    simp [start_with_failover, hE, hf]

/-- Claim C9 witness: an existing configured path is used as-is, and a world
with no resolvable path makes the whole start fail immediately. -/
theorem c9_path_resolution_fatal_witness :
    find_frontend_path trivialFs (some ("/cfg")) = some ("/cfg") ∧
    start_with_failover { path := none } lostWorld RuntimeState.initial =
      { result := { success := false, error := some ("Chemin du frontend non trouvé.") },
        state := RuntimeState.initial, events := [], tried := [] } := by
  have h := c9_path_resolution_fatal trivialFs "/cfg" { path := none } lostWorld
    RuntimeState.initial
  exact ⟨h.1 (by decide) rfl, h.2.2.2 rfl rfl⟩

/-- Claim C10: with the enabled flag false, `start_with_failover` returns
`{success: True, error: "Frontend désactivé"}` at once — it requires no
resolved path, probes no port, runs no install, spawns nothing (empty event
trace, no tried port) and leaves the runtime state exactly as it was. -/
theorem c10_disabled_short_circuit (cfg : Config) (env : WorldEnv) (s : RuntimeState)
    (h : cfg.enabled = false) :
    start_with_failover cfg env s =
      { result := { success := true, error := some ("Frontend désactivé") },
        state := s, events := [], tried := [] } := by
  simp [start_with_failover, h]

/-- Claim C10 witness: the disabled configuration applied in a world where
path resolution would fail and every attempt would succeed — neither
matters. -/
theorem c10_disabled_short_circuit_witness :
    start_with_failover disabledConfig lostWorld RuntimeState.initial =
      { result := { success := true, error := some ("Frontend désactivé") },
        state := RuntimeState.initial, events := [], tried := [] } :=
  c10_disabled_short_circuit disabledConfig lostWorld RuntimeState.initial rfl
